import Mathlib

/-!
Verification of the DECIDR decision scoring engine (`compute_options` in
`src/app.py`).  Real-valued quantities are embedded as rationals; the Python
value `float("inf")` used for an infinite payback period is embedded by the
two-constructor type `Payback`.  The three option records, the composite
score, and the stable descending sort performed by `sorted(..., reverse=True)`
are transcribed directly from the source.
-/

namespace Decidr

/-- The three recognized feasibility tiers (the keys of the `feas_mult`
dictionary at src/app.py line 40). -/
inductive Feasibility where
  | High
  | Medium
  | Low
deriving DecidableEq, Repr

/-- Feasibility multiplier: `{"High (good roof/land)": 1.0, "Medium": 0.75,
"Low / constrained": 0.45}` (line 40). -/
def feasMult : Feasibility → ℚ
  | .High => 1.0
  | .Medium => 0.75
  | .Low => 0.45

/-- Payback period: a nonnegative float or `float("inf")`. -/
inductive Payback where
  | finite : ℚ → Payback
  | inf : Payback
deriving DecidableEq, Repr

/-- One option record (the dictionaries built at lines 76-101, plus the
`score` entry added by the loop at lines 104-107; `score` defaults to 0
before that loop runs). -/
structure OptionRecord where
  name : String
  capex : ℚ
  annual_savings : ℚ
  payback_years : Payback
  co2_saved_t : ℚ
  notes : String
  score : ℚ := 0
deriving DecidableEq, Repr

/-- `co2_factor = 0.20` (line 61). -/
def co2_factor : ℚ := 0.20

/-- The clamped on-site CAPEX estimate
`max(500000.0, min(8000000.0, (annual_kwh * 1.15) * feas_mult / 1000.0))`
(line 50). -/
def capexClamped (annual_kwh m : ℚ) : ℚ :=
  max 500000 (min 8000000 ((annual_kwh * 1.15) * m / 1000))

/-- The on-site generation option (lines 44-62 and 77-84). -/
def onsiteRecord (annual_bill annual_kwh budget : ℚ) (feasibility : Feasibility)
    (include_batt : Bool) : OptionRecord :=
  let m := feasMult feasibility
  let save_frac := if include_batt then 0.70 * m else 0.55 * m
  let capex0 := capexClamped annual_kwh m
  let capex_solar_batt := if budget > 0 ∧ capex0 > budget then budget else capex0
  let annual_savings := annual_bill * save_frac
  let payback : Payback :=
    if annual_savings > 0 then .finite (capex_solar_batt / annual_savings) else .inf
  let co2_saved_t := (annual_kwh * save_frac * co2_factor) / 1000
  { name := if include_batt then "Install Solar + Battery" else "Install Solar (no battery)"
    capex := capex_solar_batt
    annual_savings := annual_savings
    payback_years := payback
    co2_saved_t := co2_saved_t
    notes := if budget > 0 ∧ capex0 > budget then "Phased to match budget."
             else "On-site generation reduces bills and exposure to volatility." }

/-- The renewable PPA option (lines 64-68 and 85-92). -/
def ppaRecord (annual_bill annual_kwh : ℚ) (feasibility : Feasibility) : OptionRecord :=
  let m := feasMult feasibility
  let capex_ppa : ℚ := 25000
  let savings_ppa := annual_bill * (0.18 * m)
  let payback_ppa : Payback :=
    if savings_ppa > 0 then .finite (capex_ppa / savings_ppa) else .inf
  let co2_saved_ppa_t := (annual_kwh * 0.30 * co2_factor) / 1000
  { name := "Renewable PPA (Power Purchase Agreement)"
    capex := capex_ppa
    annual_savings := savings_ppa
    payback_years := payback_ppa
    co2_saved_t := co2_saved_ppa_t
    notes := "Low CAPEX; contractual green supply; depends on counterparty and terms." }

/-- The offsets option (lines 70-74 and 93-100). -/
def offsetsRecord (annual_kwh : ℚ) : OptionRecord :=
  { name := "Buy Verified Offsets"
    capex := annual_kwh * co2_factor / 1000 * 30
    annual_savings := 0
    payback_years := .inf
    co2_saved_t := (annual_kwh * co2_factor) / 1000
    notes := "Improves reporting but does not reduce energy costs; quality varies." }

/-- `pb_score = 0 if math.isinf(pb) else max(0.0, 10.0 - pb)` (line 106). -/
def pbScore : Payback → ℚ
  | .inf => 0
  | .finite pb => max 0 (10 - pb)

/-- The composite score of line 107, as a function of the record fields it
reads and the two inputs it captures. -/
def scoreOf (annual_bill annual_kwh annual_savings : ℚ) (payback : Payback)
    (co2_saved_t : ℚ) : ℚ :=
  (annual_savings / max annual_bill 1) * 10 + pbScore payback
    + (co2_saved_t / max (annual_kwh * co2_factor / 1000) 0.000001) * 5

/-- The scoring loop body (lines 104-107): store the composite score on the
record. -/
def addScore (annual_bill annual_kwh : ℚ) (o : OptionRecord) : OptionRecord :=
  { o with score := scoreOf annual_bill annual_kwh o.annual_savings o.payback_years o.co2_saved_t }

/-- The fixed identity-ordered list of the three options (lines 76-101). -/
def baseOptions (annual_bill annual_kwh budget : ℚ) (feasibility : Feasibility)
    (include_batt : Bool) : List OptionRecord :=
  [onsiteRecord annual_bill annual_kwh budget feasibility include_batt,
   ppaRecord annual_bill annual_kwh feasibility,
   offsetsRecord annual_kwh]

/-- The identity-ordered list after the scoring loop has run. -/
def scoredOptions (annual_bill annual_kwh budget : ℚ) (feasibility : Feasibility)
    (include_batt : Bool) : List OptionRecord :=
  (baseOptions annual_bill annual_kwh budget feasibility include_batt).map
    (addScore annual_bill annual_kwh)

/-- Insertion step of the stable descending sort: the incoming element `x`
(earlier in the original list) is placed before `y` exactly when
`x.score ≥ y.score`, so ties keep the original order, matching Python's
stable `sorted(options, key=lambda x: x["score"], reverse=True)` (line 109). -/
def insertDesc (x : OptionRecord) : List OptionRecord → List OptionRecord
  | [] => [x]
  | y :: ys => if y.score ≤ x.score then x :: y :: ys else y :: insertDesc x ys

/-- Stable descending insertion sort by `score` (line 109). -/
def sortDesc : List OptionRecord → List OptionRecord
  | [] => []
  | x :: xs => insertDesc x (sortDesc xs)

/-- `compute_options` (lines 34-110): build the three records, score them,
and return them sorted by score descending. -/
def compute_options (annual_bill annual_kwh budget : ℚ) (feasibility : Feasibility)
    (include_batt : Bool) : List OptionRecord :=
  sortDesc (scoredOptions annual_bill annual_kwh budget feasibility include_batt)

/-- Position of a record in the fixed identity order, recovered from its
`name` (the three options always carry distinct names). -/
def identityIdx (o : OptionRecord) : ℕ :=
  if o.name = "Renewable PPA (Power Purchase Agreement)" then 1
  else if o.name = "Buy Verified Offsets" then 2
  else 0

/-- Module-level names bound by the import statements of src/app.py
(lines 1-6): `streamlit as st`, `BytesIO`, and the six reportlab names. -/
def moduleImportedNames : List String :=
  ["st", "BytesIO", "A4", "SimpleDocTemplate", "Paragraph", "Spacer",
   "Table", "TableStyle", "getSampleStyleSheet", "colors"]

/-- Global, non-builtin names referenced inside the body of
`compute_options`: line 106 reads `math.isinf`. -/
def computeOptionsGlobalRefs : List String := ["math"]

/-! ### Helper lemmas -/

theorem feasMult_pos (f : Feasibility) : 0 < feasMult f := by
  cases f <;> norm_num [feasMult]

theorem addScore_capex (b k : ℚ) (o : OptionRecord) : (addScore b k o).capex = o.capex := rfl

theorem addScore_annual_savings (b k : ℚ) (o : OptionRecord) :
    (addScore b k o).annual_savings = o.annual_savings := rfl

theorem addScore_payback (b k : ℚ) (o : OptionRecord) :
    (addScore b k o).payback_years = o.payback_years := rfl

theorem addScore_co2 (b k : ℚ) (o : OptionRecord) :
    (addScore b k o).co2_saved_t = o.co2_saved_t := rfl

theorem addScore_name (b k : ℚ) (o : OptionRecord) : (addScore b k o).name = o.name := rfl

theorem addScore_score (b k : ℚ) (o : OptionRecord) :
    (addScore b k o).score = scoreOf b k o.annual_savings o.payback_years o.co2_saved_t := rfl

theorem onsiteRecord_capex (bill kwh budget : ℚ) (f : Feasibility) (batt : Bool) :
    (onsiteRecord bill kwh budget f batt).capex =
      if budget > 0 ∧ capexClamped kwh (feasMult f) > budget then budget
      else capexClamped kwh (feasMult f) := rfl

theorem onsiteRecord_notes (bill kwh budget : ℚ) (f : Feasibility) (batt : Bool) :
    (onsiteRecord bill kwh budget f batt).notes =
      if budget > 0 ∧ capexClamped kwh (feasMult f) > budget then "Phased to match budget."
      else "On-site generation reduces bills and exposure to volatility." := rfl

theorem onsiteRecord_annual_savings (bill kwh budget : ℚ) (f : Feasibility) (batt : Bool) :
    (onsiteRecord bill kwh budget f batt).annual_savings =
      bill * (if batt then 0.70 * feasMult f else 0.55 * feasMult f) := rfl

theorem onsiteRecord_payback (bill kwh budget : ℚ) (f : Feasibility) (batt : Bool) :
    (onsiteRecord bill kwh budget f batt).payback_years =
      if (onsiteRecord bill kwh budget f batt).annual_savings > 0 then
        .finite ((onsiteRecord bill kwh budget f batt).capex /
          (onsiteRecord bill kwh budget f batt).annual_savings)
      else .inf := rfl

theorem onsiteRecord_co2 (bill kwh budget : ℚ) (f : Feasibility) (batt : Bool) :
    (onsiteRecord bill kwh budget f batt).co2_saved_t =
      (kwh * (if batt then 0.70 * feasMult f else 0.55 * feasMult f) * co2_factor) / 1000 := rfl

theorem ppaRecord_capex (bill kwh : ℚ) (f : Feasibility) : (ppaRecord bill kwh f).capex = 25000 := rfl

theorem ppaRecord_annual_savings (bill kwh : ℚ) (f : Feasibility) :
    (ppaRecord bill kwh f).annual_savings = bill * (0.18 * feasMult f) := rfl

theorem ppaRecord_payback (bill kwh : ℚ) (f : Feasibility) :
    (ppaRecord bill kwh f).payback_years =
      if (ppaRecord bill kwh f).annual_savings > 0 then
        .finite (25000 / (ppaRecord bill kwh f).annual_savings)
      else .inf := rfl

theorem ppaRecord_co2 (bill kwh : ℚ) (f : Feasibility) :
    (ppaRecord bill kwh f).co2_saved_t = (kwh * 0.30 * co2_factor) / 1000 := rfl

theorem capexClamped_lb (kwh m : ℚ) : 500000 ≤ capexClamped kwh m :=
  le_max_left _ _

theorem capexClamped_ub (kwh m : ℚ) : capexClamped kwh m ≤ 8000000 :=
  max_le (by norm_num) (min_le_left _ _)

theorem save_frac_nonneg (f : Feasibility) (batt : Bool) :
    (0 : ℚ) ≤ (if batt then 0.70 * feasMult f else 0.55 * feasMult f) := by
  cases f <;> cases batt <;> norm_num [feasMult]

theorem mem_insertDesc {y x : OptionRecord} {l : List OptionRecord} :
    y ∈ insertDesc x l ↔ y = x ∨ y ∈ l := by
  induction l with
  | nil => simp [insertDesc]
  | cons z zs ih =>
    simp only [insertDesc]
    split_ifs
    · simp
    · simp only [List.mem_cons, ih]
      tauto

theorem mem_sortDesc {y : OptionRecord} {l : List OptionRecord} :
    y ∈ sortDesc l ↔ y ∈ l := by
  induction l with
  | nil => simp [sortDesc]
  | cons x xs ih => simp [sortDesc, mem_insertDesc, ih]

theorem length_insertDesc (x : OptionRecord) (l : List OptionRecord) :
    (insertDesc x l).length = l.length + 1 := by
  induction l with
  | nil => rfl
  | cons z zs ih =>
    simp only [insertDesc]
    split_ifs <;> simp [ih]

theorem length_sortDesc (l : List OptionRecord) : (sortDesc l).length = l.length := by
  induction l with
  | nil => rfl
  | cons x xs ih => simp [sortDesc, length_insertDesc, ih]

theorem mem_compute_options {bill kwh budget : ℚ} {f : Feasibility} {batt : Bool}
    {o : OptionRecord} :
    o ∈ compute_options bill kwh budget f batt ↔
      o = addScore bill kwh (onsiteRecord bill kwh budget f batt) ∨
      o = addScore bill kwh (ppaRecord bill kwh f) ∨
      o = addScore bill kwh (offsetsRecord kwh) := by
  rw [compute_options, mem_sortDesc]
  simp [scoredOptions, baseOptions]

theorem pbScore_nonneg (pb : Payback) : 0 ≤ pbScore pb := by
  cases pb with
  | inf => exact le_refl 0
  | finite q => exact le_max_left 0 (10 - q)

theorem scoreOf_nonneg (bill kwh s : ℚ) (pb : Payback) (c : ℚ)
    (hs : 0 ≤ s) (hc : 0 ≤ c) : 0 ≤ scoreOf bill kwh s pb c := by
  have h1 : (0 : ℚ) < max bill 1 := lt_of_lt_of_le one_pos (le_max_right bill 1)
  have h2 : (0 : ℚ) < max (kwh * co2_factor / 1000) 0.000001 :=
    lt_of_lt_of_le (by norm_num) (le_max_right _ _)
  unfold scoreOf
  refine add_nonneg (add_nonneg ?_ (pbScore_nonneg pb)) ?_
  · exact mul_nonneg (div_nonneg hs h1.le) (by norm_num)
  · exact mul_nonneg (div_nonneg hc h2.le) (by norm_num)

theorem identityIdx_onsite (bill kwh budget : ℚ) (f : Feasibility) (batt : Bool) :
    identityIdx (addScore bill kwh (onsiteRecord bill kwh budget f batt)) = 0 := by
  cases batt <;> rfl

theorem identityIdx_ppa (bill kwh : ℚ) (f : Feasibility) :
    identityIdx (addScore bill kwh (ppaRecord bill kwh f)) = 1 := rfl

theorem identityIdx_offsets (bill kwh : ℚ) :
    identityIdx (addScore bill kwh (offsetsRecord kwh)) = 2 := rfl

/-- The payback policy satisfied by a record whose payback field was computed
as `capex / savings if savings > 0 else float("inf")`. -/
def PaybackPolicy (o : OptionRecord) : Prop :=
  (∀ q, o.payback_years = .finite q → 0 ≤ q) ∧
  (0 < o.annual_savings → o.payback_years = .finite (o.capex / o.annual_savings)) ∧
  (o.payback_years = .inf ↔ o.annual_savings = 0)

theorem paybackPolicy_of_guarded {cap sav : ℚ} {o : OptionRecord}
    (hcap : o.capex = cap) (hsav : o.annual_savings = sav)
    (hpb : o.payback_years = if sav > 0 then .finite (cap / sav) else .inf)
    (hcap0 : 0 ≤ cap) (hsav0 : 0 ≤ sav) : PaybackPolicy o := by
  refine ⟨?_, ?_, ?_⟩
  · intro q hq
    rw [hpb] at hq
    by_cases hpos : sav > 0
    · rw [if_pos hpos, Payback.finite.injEq] at hq
      rw [← hq]
      exact div_nonneg hcap0 hsav0
    · rw [if_neg hpos] at hq
      exact absurd hq (by simp)
  · intro hpos
    rw [hsav] at hpos
    rw [hpb, if_pos hpos, hcap, hsav]
  · rw [hpb, hsav]
    by_cases hpos : sav > 0
    · rw [if_pos hpos]
      constructor
      · intro h
        exact absurd h (by simp)
      · intro h
        exact absurd (h ▸ hpos) (lt_irrefl 0)
    · rw [if_neg hpos]
      simp only [true_iff]
      exact le_antisymm (not_lt.mp hpos) hsav0

theorem onsite_capex_nonneg (bill kwh budget : ℚ) (f : Feasibility) (batt : Bool)
    (hbud : 0 ≤ budget) : 0 ≤ (onsiteRecord bill kwh budget f batt).capex := by
  rw [onsiteRecord_capex]
  split_ifs
  · exact hbud
  · exact le_trans (by norm_num) (capexClamped_lb kwh (feasMult f))

theorem onsite_savings_nonneg (bill kwh budget : ℚ) (f : Feasibility) (batt : Bool)
    (hb : 0 ≤ bill) : 0 ≤ (onsiteRecord bill kwh budget f batt).annual_savings := by
  rw [onsiteRecord_annual_savings]
  exact mul_nonneg hb (save_frac_nonneg f batt)

theorem ppa_savings_nonneg (bill kwh : ℚ) (f : Feasibility)
    (hb : 0 ≤ bill) : 0 ≤ (ppaRecord bill kwh f).annual_savings := by
  rw [ppaRecord_annual_savings]
  exact mul_nonneg hb (mul_nonneg (by norm_num) (feasMult_pos f).le)

theorem paybackPolicy_onsite (bill kwh budget : ℚ) (f : Feasibility) (batt : Bool)
    (hb : 0 ≤ bill) (hbud : 0 ≤ budget) :
    PaybackPolicy (onsiteRecord bill kwh budget f batt) :=
  paybackPolicy_of_guarded rfl rfl (onsiteRecord_payback bill kwh budget f batt)
    (onsite_capex_nonneg bill kwh budget f batt hbud)
    (onsite_savings_nonneg bill kwh budget f batt hb)

theorem paybackPolicy_ppa (bill kwh : ℚ) (f : Feasibility) (hb : 0 ≤ bill) :
    PaybackPolicy (ppaRecord bill kwh f) :=
  paybackPolicy_of_guarded (ppaRecord_capex bill kwh f) rfl (ppaRecord_payback bill kwh f)
    (by norm_num) (ppa_savings_nonneg bill kwh f hb)

theorem paybackPolicy_offsets (kwh : ℚ) : PaybackPolicy (offsetsRecord kwh) := by
  refine ⟨?_, ?_, ?_⟩
  · intro q hq
    exact absurd hq (by simp [offsetsRecord])
  · intro hpos
    exact absurd hpos (by simp [offsetsRecord])
  · simp [offsetsRecord]

theorem paybackPolicy_addScore {o : OptionRecord} (b k : ℚ) (h : PaybackPolicy o) :
    PaybackPolicy (addScore b k o) := h

theorem sortDesc_three_stable (x y z : OptionRecord) (ix iy iz : ℕ)
    (hx : identityIdx x = ix) (hy : identityIdx y = iy) (hz : identityIdx z = iz)
    (hxy : ix < iy) (hyz : iy < iz) :
    ∃ a b c, sortDesc [x, y, z] = [a, b, c] ∧
      List.Perm [a, b, c] [x, y, z] ∧
      b.score ≤ a.score ∧ c.score ≤ b.score ∧
      (a.score = b.score → identityIdx a < identityIdx b) ∧
      (b.score = c.score → identityIdx b < identityIdx c) ∧
      (a.score = c.score → identityIdx a < identityIdx c) := by
  have e0 : sortDesc [x, y, z] = insertDesc x (insertDesc y [z]) := rfl
  rw [e0]
  by_cases h1 : z.score ≤ y.score
  · have e1 : insertDesc y [z] = [y, z] := by simp only [insertDesc, if_pos h1]
    rw [e1]
    by_cases h2 : y.score ≤ x.score
    · have e2 : insertDesc x [y, z] = [x, y, z] := by simp only [insertDesc, if_pos h2]
      rw [e2]
      refine ⟨x, y, z, rfl, List.Perm.refl _, h2, h1, ?_, ?_, ?_⟩
      · intro _
        rw [hx, hy]
        exact hxy
      · intro _
        rw [hy, hz]
        exact hyz
      · intro _
        rw [hx, hz]
        omega
    · by_cases h3 : z.score ≤ x.score
      · have e2 : insertDesc x [y, z] = [y, x, z] := by
          simp only [insertDesc, if_neg h2, if_pos h3]
        rw [e2]
        refine ⟨y, x, z, rfl, List.Perm.swap x y [z],
          le_of_lt (not_le.mp h2), h3, ?_, ?_, ?_⟩
        · intro heq
          exact absurd (le_of_eq heq) h2
        · intro _
          rw [hx, hz]
          omega
        · intro _
          rw [hy, hz]
          exact hyz
      · have e2 : insertDesc x [y, z] = [y, z, x] := by
          simp only [insertDesc, if_neg h2, if_neg h3]
        rw [e2]
        refine ⟨y, z, x, rfl, @List.perm_append_comm _ [y, z] [x],
          h1, le_of_lt (not_le.mp h3), ?_, ?_, ?_⟩
        · intro _
          rw [hy, hz]
          exact hyz
        · intro heq
          exact absurd (le_of_eq heq) h3
        · intro heq
          exact absurd (le_of_eq heq) h2
  · have e1 : insertDesc y [z] = [z, y] := by simp only [insertDesc, if_neg h1]
    rw [e1]
    by_cases h2 : z.score ≤ x.score
    · have e2 : insertDesc x [z, y] = [x, z, y] := by simp only [insertDesc, if_pos h2]
      rw [e2]
      refine ⟨x, z, y, rfl, List.Perm.cons x (List.Perm.swap y z []),
        h2, le_of_lt (not_le.mp h1), ?_, ?_, ?_⟩
      · intro _
        rw [hx, hz]
        omega
      · intro heq
        exact absurd (le_of_eq heq) h1
      · intro _
        rw [hx, hy]
        exact hxy
    · by_cases h3 : y.score ≤ x.score
      · have e2 : insertDesc x [z, y] = [z, x, y] := by
          simp only [insertDesc, if_neg h2, if_pos h3]
        rw [e2]
        refine ⟨z, x, y, rfl, @List.perm_append_comm _ [z] [x, y],
          le_of_lt (not_le.mp h2), h3, ?_, ?_, ?_⟩
        · intro heq
          exact absurd (le_of_eq heq) h2
        · intro _
          rw [hx, hy]
          exact hxy
        · intro heq
          exact absurd (le_of_eq heq) h1
      · have e2 : insertDesc x [z, y] = [z, y, x] := by
          simp only [insertDesc, if_neg h2, if_neg h3]
        rw [e2]
        refine ⟨z, y, x, rfl, List.reverse_perm [x, y, z],
          le_of_lt (not_le.mp h1), le_of_lt (not_le.mp h3), ?_, ?_, ?_⟩
        · intro heq
          exact absurd (le_of_eq heq) h1
        · intro heq
          exact absurd (le_of_eq heq) h3
        · intro heq
          exact absurd (le_of_eq heq) h2

/-! ### Claim theorems -/

/-- C1, counterexample: at `annual_bill = 0`, `annual_kwh = 0`, `budget = 1`,
tier High, battery included, the budget is positive and the clamped estimate
(500000) exceeds it, yet the on-site capex (set to the budget, 1) lies below
500000, so it is not within `[500000, budget]` as the claim states. -/
theorem onsite_capex_interval_cex :
    0 < (1 : ℚ) ∧ (1 : ℚ) < capexClamped 0 (feasMult .High) ∧
    (onsiteRecord 0 0 1 .High true).capex = 1 ∧
    ¬ (500000 ≤ (onsiteRecord 0 0 1 .High true).capex) := by
  norm_num [onsiteRecord, capexClamped, feasMult]

/-- C1, amended: whenever `budget > 0` and the clamped unconstrained estimate
`max(500000, min(8000000, annual_kwh * 1.15 * multiplier / 1000))` exceeds
`budget`, the on-site capex is set exactly to `budget` (hence is at most
`budget`, but can fall below 500000) and the record is marked phased in its
notes; otherwise the capex lies within `[500000, 8000000]` and the notes
carry the generic on-site text. -/
theorem onsite_capex_bounds (bill kwh budget : ℚ) (f : Feasibility) (batt : Bool) :
    (0 < budget ∧ budget < capexClamped kwh (feasMult f) →
      (onsiteRecord bill kwh budget f batt).capex = budget ∧
      (onsiteRecord bill kwh budget f batt).notes = "Phased to match budget.") ∧
    (¬ (0 < budget ∧ budget < capexClamped kwh (feasMult f)) →
      500000 ≤ (onsiteRecord bill kwh budget f batt).capex ∧
      (onsiteRecord bill kwh budget f batt).capex ≤ 8000000) := by
  constructor
  · intro h
    exact ⟨by rw [onsiteRecord_capex, if_pos h], by rw [onsiteRecord_notes, if_pos h]⟩
  · intro h
    rw [onsiteRecord_capex, if_neg h]
    exact ⟨capexClamped_lb kwh (feasMult f), capexClamped_ub kwh (feasMult f)⟩

theorem onsite_capex_bounds_witness :
    (0 < (1 : ℚ) ∧ (1 : ℚ) < capexClamped 0 (feasMult .High)) ∧
    (onsiteRecord 0 0 1 .High true).capex = 1 ∧
    (onsiteRecord 0 0 1 .High true).notes = "Phased to match budget." := by
  have h : 0 < (1 : ℚ) ∧ (1 : ℚ) < capexClamped 0 (feasMult .High) := by
    norm_num [capexClamped, feasMult]
  exact ⟨h, (onsite_capex_bounds 0 0 1 .High true).1 h⟩

/-- C2: the claim asserts `compute_options` is total over its documented
domain, but the body reads the global `math` (line 106, `math.isinf`), which
is bound by none of the module's import statements (lines 1-6), so every call
raises `NameError`.  The embedded arithmetic itself is total: it always
yields exactly three records. -/
theorem compute_options_import_bug :
    ("math" ∈ computeOptionsGlobalRefs ∧ "math" ∉ moduleImportedNames) ∧
    ∀ (bill kwh budget : ℚ) (f : Feasibility) (batt : Bool),
      (compute_options bill kwh budget f batt).length = 3 := by
  refine ⟨by decide, ?_⟩
  intro bill kwh budget f batt
  rw [compute_options, length_sortDesc]
  rfl

/-- C4: for every record returned by `compute_options` on a valid input,
the payback is never negative, equals `capex / annual_savings` whenever
`annual_savings > 0`, and is infinite exactly when `annual_savings = 0`. -/
theorem payback_policy_all (bill kwh budget : ℚ) (f : Feasibility) (batt : Bool)
    (hb : 0 ≤ bill) (hbud : 0 ≤ budget) :
    ∀ o ∈ compute_options bill kwh budget f batt,
      (∀ q, o.payback_years = .finite q → 0 ≤ q) ∧
      (0 < o.annual_savings → o.payback_years = .finite (o.capex / o.annual_savings)) ∧
      (o.payback_years = .inf ↔ o.annual_savings = 0) := by
  intro o ho
  rcases mem_compute_options.mp ho with h | h | h <;> subst h
  · exact paybackPolicy_addScore bill kwh (paybackPolicy_onsite bill kwh budget f batt hb hbud)
  · exact paybackPolicy_addScore bill kwh (paybackPolicy_ppa bill kwh f hb)
  · exact paybackPolicy_addScore bill kwh (paybackPolicy_offsets kwh)

theorem payback_policy_all_witness :
    (0 : ℚ) ≤ 0 ∧
    addScore 0 0 (offsetsRecord 0) ∈ compute_options 0 0 0 .High true ∧
    ((addScore 0 0 (offsetsRecord 0)).payback_years = .inf ↔
      (addScore 0 0 (offsetsRecord 0)).annual_savings = 0) := by
  have hmem : addScore 0 0 (offsetsRecord 0) ∈ compute_options 0 0 0 .High true :=
    mem_compute_options.mpr (Or.inr (Or.inr rfl))
  exact ⟨le_refl 0, hmem,
    (payback_policy_all 0 0 0 .High true (le_refl 0) (le_refl 0) _ hmem).2.2⟩

/-- C5: with the other inputs held fixed, the composite score is monotonically
non-decreasing in `annual_savings` and in `co2_saved_t`, strictly decreasing
in (finite) `payback_years` on `[0, 10]`, and the payback contribution is
exactly 0 for any payback of at least 10 years and for an infinite payback. -/
theorem score_monotone (bill kwh : ℚ) :
    (∀ s₁ s₂ : ℚ, ∀ pb : Payback, ∀ c : ℚ, s₁ ≤ s₂ →
      scoreOf bill kwh s₁ pb c ≤ scoreOf bill kwh s₂ pb c) ∧
    (∀ s : ℚ, ∀ pb : Payback, ∀ c₁ c₂ : ℚ, c₁ ≤ c₂ →
      scoreOf bill kwh s pb c₁ ≤ scoreOf bill kwh s pb c₂) ∧
    (∀ s c p₁ p₂ : ℚ, 0 ≤ p₁ → p₁ < p₂ → p₂ ≤ 10 →
      scoreOf bill kwh s (.finite p₂) c < scoreOf bill kwh s (.finite p₁) c) ∧
    (∀ p : ℚ, 10 ≤ p → pbScore (.finite p) = 0) ∧ pbScore .inf = 0 := by
  have hM : (0 : ℚ) < max bill 1 := lt_of_lt_of_le one_pos (le_max_right bill 1)
  have hD : (0 : ℚ) < max (kwh * co2_factor / 1000) 0.000001 :=
    lt_of_lt_of_le (by norm_num) (le_max_right _ _)
  refine ⟨?_, ?_, ?_, ?_, rfl⟩
  · intro s₁ s₂ pb c h
    unfold scoreOf
    have : s₁ / max bill 1 ≤ s₂ / max bill 1 := (div_le_div_iff_of_pos_right hM).mpr h
    linarith
  · intro s pb c₁ c₂ h
    unfold scoreOf
    have : c₁ / max (kwh * co2_factor / 1000) 0.000001 ≤
        c₂ / max (kwh * co2_factor / 1000) 0.000001 := (div_le_div_iff_of_pos_right hD).mpr h
    linarith
  · intro s c p₁ p₂ h0 hlt h10
    unfold scoreOf
    have h₁ : pbScore (.finite p₁) = 10 - p₁ := max_eq_right (by linarith)
    have h₂ : pbScore (.finite p₂) = 10 - p₂ := max_eq_right (by linarith)
    rw [h₁, h₂]
    linarith
  · intro p hp
    exact max_eq_left (by linarith)

theorem score_monotone_witness :
    (0 : ℚ) ≤ 1 ∧ scoreOf 1 1 0 .inf 0 ≤ scoreOf 1 1 1 .inf 0 :=
  ⟨by norm_num, (score_monotone 1 1).1 0 1 .inf 0 (by norm_num)⟩

/-- C6: with `budget = 0` no phasing is applied: the on-site capex equals the
clamped estimate `max(500000, min(8000000, annual_kwh * 1.15 * mult / 1000))`
and the notes carry the generic on-site text. -/
theorem budget_zero_unconstrained (bill kwh : ℚ) (f : Feasibility) (batt : Bool) :
    (onsiteRecord bill kwh 0 f batt).capex =
      max 500000 (min 8000000 ((kwh * 1.15) * feasMult f / 1000)) ∧
    (onsiteRecord bill kwh 0 f batt).notes =
      "On-site generation reduces bills and exposure to volatility." := by
  have hneg : ¬ ((0 : ℚ) > 0 ∧ capexClamped kwh (feasMult f) > 0) := by
    rintro ⟨h, -⟩
    exact lt_irrefl 0 h
  constructor
  · rw [onsiteRecord_capex, if_neg hneg]
    rfl
  · rw [onsiteRecord_notes, if_neg hneg]

/-- C7: the PPA option has capex exactly 25000 and savings
`annual_bill * 0.18 * multiplier` with multiplier High 1.0 / Medium 0.75 /
Low 0.45, while its CO₂ saving `annual_kwh * 0.30 * 0.20 / 1000` does not
depend on the feasibility tier. -/
theorem ppa_option_fields (bill kwh : ℚ) (f : Feasibility) :
    (ppaRecord bill kwh f).capex = 25000 ∧
    (ppaRecord bill kwh f).annual_savings = bill * 0.18 * feasMult f ∧
    feasMult .High = 1.0 ∧ feasMult .Medium = 0.75 ∧ feasMult .Low = 0.45 ∧
    (ppaRecord bill kwh f).co2_saved_t = kwh * 0.30 * 0.20 / 1000 ∧
    ∀ f₂ : Feasibility, (ppaRecord bill kwh f₂).co2_saved_t = (ppaRecord bill kwh f).co2_saved_t := by
  refine ⟨rfl, ?_, rfl, rfl, rfl, ?_, fun f₂ => rfl⟩
  · rw [ppaRecord_annual_savings]
    ring
  · rw [ppaRecord_co2, co2_factor]

/-- C8: the offsets option has zero savings, infinite payback,
capex `annual_kwh * (0.20 / 1000) * 30` and CO₂ saving
`annual_kwh * 0.20 / 1000`. -/
theorem offsets_option_fields (kwh : ℚ) :
    (offsetsRecord kwh).annual_savings = 0 ∧
    (offsetsRecord kwh).payback_years = Payback.inf ∧
    (offsetsRecord kwh).capex = kwh * (0.20 / 1000) * 30 ∧
    (offsetsRecord kwh).co2_saved_t = kwh * 0.20 / 1000 := by
  refine ⟨rfl, rfl, ?_, ?_⟩
  · show kwh * co2_factor / 1000 * 30 = kwh * (0.20 / 1000) * 30
    rw [co2_factor]
    ring
  · show (kwh * co2_factor) / 1000 = kwh * 0.20 / 1000
    rw [co2_factor]

/-- C9: whenever `annual_kwh ≥ 0.005` (so that the facility's total emissions
proxy `annual_kwh * 0.20 / 1000` is at least the `1e-6` floor), the offsets
record's composite score is exactly 5, independently of the bill (and of
budget, tier and battery flag, which the offsets score formula never reads). -/
theorem offsets_score_five (bill kwh : ℚ) (h : (0.005 : ℚ) ≤ kwh) :
    (addScore bill kwh (offsetsRecord kwh)).score = 5 := by
  have hd : (0.000001 : ℚ) ≤ kwh * co2_factor / 1000 := by
    rw [co2_factor]
    linarith
  have hdpos : (0 : ℚ) < kwh * co2_factor / 1000 :=
    lt_of_lt_of_le (by norm_num) hd
  rw [addScore_score]
  show scoreOf bill kwh 0 .inf ((kwh * co2_factor) / 1000) = 5
  unfold scoreOf
  rw [max_eq_left hd]
  rw [zero_div, pbScore]
  rw [div_self (ne_of_gt hdpos)]
  norm_num

theorem offsets_score_five_witness :
    (0.005 : ℚ) ≤ 1 ∧ (addScore 0 1 (offsetsRecord 1)).score = 5 :=
  ⟨by norm_num, offsets_score_five 0 1 (by norm_num)⟩

/-- C10: on any input with nonnegative bill, consumption and budget, every
returned record has nonnegative capex, savings, CO₂ saving and score. -/
theorem records_nonneg (bill kwh budget : ℚ) (f : Feasibility) (batt : Bool)
    (hb : 0 ≤ bill) (hk : 0 ≤ kwh) (hbud : 0 ≤ budget) :
    ∀ o ∈ compute_options bill kwh budget f batt,
      0 ≤ o.capex ∧ 0 ≤ o.annual_savings ∧ 0 ≤ o.co2_saved_t ∧ 0 ≤ o.score := by
  intro o ho
  have score_of (r : OptionRecord) (hs : 0 ≤ r.annual_savings) (hc : 0 ≤ r.co2_saved_t) :
      0 ≤ (addScore bill kwh r).score := by
    rw [addScore_score]
    exact scoreOf_nonneg bill kwh _ _ _ hs hc
  rcases mem_compute_options.mp ho with h | h | h <;> subst h
  · have hs := onsite_savings_nonneg bill kwh budget f batt hb
    have hc : 0 ≤ (onsiteRecord bill kwh budget f batt).co2_saved_t := by
      rw [onsiteRecord_co2]
      exact div_nonneg (mul_nonneg (mul_nonneg hk (save_frac_nonneg f batt))
        (by norm_num [co2_factor])) (by norm_num)
    exact ⟨onsite_capex_nonneg bill kwh budget f batt hbud, hs, hc,
      score_of _ hs hc⟩
  · have hs := ppa_savings_nonneg bill kwh f hb
    have hc : 0 ≤ (ppaRecord bill kwh f).co2_saved_t := by
      rw [ppaRecord_co2]
      exact div_nonneg (mul_nonneg (mul_nonneg hk (by norm_num)) (by norm_num [co2_factor]))
        (by norm_num)
    exact ⟨by rw [addScore_capex, ppaRecord_capex]; norm_num, hs, hc, score_of _ hs hc⟩
  · have hs : 0 ≤ (offsetsRecord kwh).annual_savings := le_refl 0
    have hc : 0 ≤ (offsetsRecord kwh).co2_saved_t :=
      div_nonneg (mul_nonneg hk (by norm_num [co2_factor])) (by norm_num)
    have hcap : 0 ≤ (offsetsRecord kwh).capex :=
      mul_nonneg (div_nonneg (mul_nonneg hk (by norm_num [co2_factor])) (by norm_num))
        (by norm_num)
    exact ⟨hcap, hs, hc, score_of _ hs hc⟩

/-- C3: `compute_options` returns exactly three records, a permutation of the
identity-ordered scored list (on-site, PPA, offsets), sorted by score in
non-strictly descending order, and any two records with equal scores appear
in the fixed identity order — the ranking is a stable descending sort of the
identity-ordered list. -/
theorem ranking_stable_desc (bill kwh budget : ℚ) (f : Feasibility) (batt : Bool) :
    ∃ a b c,
      compute_options bill kwh budget f batt = [a, b, c] ∧
      List.Perm [a, b, c] (scoredOptions bill kwh budget f batt) ∧
      b.score ≤ a.score ∧ c.score ≤ b.score ∧
      (a.score = b.score → identityIdx a < identityIdx b) ∧
      (b.score = c.score → identityIdx b < identityIdx c) ∧
      (a.score = c.score → identityIdx a < identityIdx c) :=
  sortDesc_three_stable
    (addScore bill kwh (onsiteRecord bill kwh budget f batt))
    (addScore bill kwh (ppaRecord bill kwh f))
    (addScore bill kwh (offsetsRecord kwh)) 0 1 2
    (identityIdx_onsite bill kwh budget f batt) (identityIdx_ppa bill kwh f)
    (identityIdx_offsets bill kwh) Nat.zero_lt_one Nat.one_lt_two

theorem records_nonneg_witness :
    (0 : ℚ) ≤ 0 ∧
    addScore 0 0 (ppaRecord 0 0 .High) ∈ compute_options 0 0 0 .High true ∧
    0 ≤ (addScore 0 0 (ppaRecord 0 0 .High)).score := by
  have hmem : addScore 0 0 (ppaRecord 0 0 .High) ∈ compute_options 0 0 0 .High true :=
    mem_compute_options.mpr (Or.inr (Or.inl rfl))
  exact ⟨le_refl 0, hmem,
    (records_nonneg 0 0 0 .High true (le_refl 0) (le_refl 0) (le_refl 0) _ hmem).2.2.2⟩

end Decidr
